import Mathlib

/-!
Shallow embedding of the server-action layer of the repository
(the file imported as app/lib/actions by the form components, together
with the zod schemas it declares).  Raw form fields are modelled as
`Option String`: `none` stands for an absent form entry, for which the
FormData lookup yields a non-string value; `some s` stands for a present
string field.  Rational numbers model the JavaScript numeric values that
the zod coercion produces on decimal-literal input (the only inputs the
development evaluates concretely); `none` from the coercion stands for NaN.
Database success or failure and the current date are passed as explicit
parameters, and the observable side effects of a handler (SQL statements,
cache revalidations, error logging) are collected in an ordered trace.
-/

set_option autoImplicit false

deriving instance DecidableEq for Except

namespace Actions

/-! ### JavaScript number coercion, as applied by the coercing zod number schema -/

/-- Numeric value of a list of decimal digit characters (most significant first). -/
def digitsToNat (cs : List Char) : ℕ :=
  cs.foldl (fun acc c => acc * 10 + (c.toNat - 48)) 0

/-- Parse an unsigned decimal literal: digits, digits followed by a dot and
optional fraction digits, or a dot followed by fraction digits.  Returns
`none` (NaN) for anything else.  Exponent, hexadecimal and Infinity forms
of the JavaScript grammar are not used by any claim and are not modelled. -/
def parseUnsignedNumber (cs : List Char) : Option ℚ :=
  let intPart := cs.takeWhile Char.isDigit
  let rest := cs.dropWhile Char.isDigit
  match rest with
  | [] => if intPart.isEmpty then none else some (digitsToNat intPart : ℚ)
  | c :: frac =>
    if c = '.' && frac.all Char.isDigit && (!intPart.isEmpty || !frac.isEmpty) then
      some ((digitsToNat intPart : ℚ) + (digitsToNat frac : ℚ) / (10 : ℚ) ^ frac.length)
    else none

/-- Strip leading and trailing whitespace, as the JavaScript ToNumber
conversion does before parsing a string. -/
def jsTrim (cs : List Char) : List Char :=
  ((cs.dropWhile Char.isWhitespace).reverse.dropWhile Char.isWhitespace).reverse

/-- JavaScript `Number(s)` on a string: whitespace-trimmed empty string is 0,
otherwise an optionally signed decimal literal; `none` models NaN. -/
def jsNumber (s : String) : Option ℚ :=
  match jsTrim s.toList with
  | [] => some 0
  | c :: rest =>
    if c = '-' then (parseUnsignedNumber rest).map (fun q => -q)
    else if c = '+' then parseUnsignedNumber rest
    else parseUnsignedNumber (c :: rest)

/-! ### Raw and validated record shapes -/

/-- The raw invoice fields read from the submitted FormData
(customerId, amount, status); `none` is an absent field. -/
structure InvoiceFormData where
  customerId : Option String
  amount : Option String
  status : Option String
deriving DecidableEq

/-- A validated, typed invoice submission as produced by a successful parse. -/
structure InvoiceData where
  customerId : String
  amount : ℚ
  status : String
deriving DecidableEq

/-- Per-field error lists for an invoice submission, as produced by
flattening the zod error; an empty list stands for an absent key. -/
structure InvoiceFieldErrors where
  customerId : List String
  amount : List String
  status : List String
deriving DecidableEq

/-- The raw customer fields read from the submitted FormData. -/
structure CustomerFormData where
  name : Option String
  email : Option String
deriving DecidableEq

/-- A validated, typed customer submission. -/
structure CustomerData where
  name : String
  email : String
deriving DecidableEq

/-- Per-field error lists for a customer submission. -/
structure CustomerFieldErrors where
  name : List String
  email : List String
deriving DecidableEq

/-! ### Validation messages from the schemas (custom texts are verbatim from
the source; default texts of the validation library are paraphrased without
quotation marks, and no claim depends on their exact wording) -/

def selectCustomerMsg : String := "Please select a customer."

def amountGtZeroMsg : String := "Please enter an amount greater than $0."

def nanMsg : String := "Expected number, received nan"

def selectStatusMsg : String := "Please select an invoice status."

def invalidEnumValueMsg (received : String) : String :=
  "Invalid enum value. Expected pending or paid, received " ++ received

def enterNameMsg : String := "Please enter the name."

def invalidEmailMsg : String := "Invalid email"

def requiredStringMsg : String := "Expected string, received null"

/-! ### Field validators, mirroring the zod schemas -/

/-- Validation of the customerId field: a plain string schema with a custom
invalid-type message, so any present string (empty included) is accepted
and an absent field is an invalid-type failure. -/
def parseCustomerId : Option String → Except (List String) String
  | none => .error [selectCustomerMsg]
  | some s => .ok s

/-- The coercion step of the coercing number schema: the absent field is the
null value, which JavaScript coerces to 0; a present string goes through
the string-to-number conversion, `none` modelling NaN. -/
def coerceNumber : Option String → Option ℚ
  | none => some 0
  | some s => jsNumber s

/-- Validation of the amount field: coerce to a number, then require it to be
strictly greater than 0 with the custom message. -/
def parseAmount (raw : Option String) : Except (List String) ℚ :=
  match coerceNumber raw with
  | none => .error [nanMsg]
  | some q => if 0 < q then .ok q else .error [amountGtZeroMsg]

/-- Validation of the status field: the two-member enum schema.  An absent
field is an invalid-type failure carrying the custom message; a present
string outside the enum is an invalid-enum-value failure carrying the
default message. -/
def parseStatus : Option String → Except (List String) String
  | none => .error [selectStatusMsg]
  | some s => if s = "pending" ∨ s = "paid" then .ok s else .error [invalidEnumValueMsg s]

/-- The error list of a field result, empty when the field validated. -/
def errsOf {α : Type} : Except (List String) α → List String
  | .error e => e
  | .ok _ => []

/-- Validation of a whole invoice submission: every field is checked and all
field errors are collected, as safeParse followed by flatten does. -/
def parseInvoiceForm (raw : InvoiceFormData) : Except InvoiceFieldErrors InvoiceData :=
  match parseCustomerId raw.customerId, parseAmount raw.amount, parseStatus raw.status with
  | .ok c, .ok a, .ok s => .ok ⟨c, a, s⟩
  | rc, ra, rs => .error ⟨errsOf rc, errsOf ra, errsOf rs⟩

/-- The CreateInvoice schema: the form schema with id and date omitted. -/
def CreateInvoice.safeParse (raw : InvoiceFormData) : Except InvoiceFieldErrors InvoiceData :=
  parseInvoiceForm raw

/-- The UpdateInvoice schema: likewise the form schema with id and date omitted. -/
def UpdateInvoice.safeParse (raw : InvoiceFormData) : Except InvoiceFieldErrors InvoiceData :=
  parseInvoiceForm raw

/-- Split a character list at every occurrence of a separator; the result is
never empty and concatenating it with separators restores the input. -/
def splitOnChar (sep : Char) : List Char → List (List Char)
  | [] => [[]]
  | c :: cs =>
    let r := splitOnChar sep cs
    if c = sep then [] :: r
    else
      match r with
      | [] => [[c]]
      | h :: t => (c :: h) :: t

/-- One dot-separated label of an email domain. -/
def isEmailLabel (l : List Char) : Bool :=
  !l.isEmpty && l.all (fun c => c.isAlphanum || c = '-')

/-- Simplified model of the email pattern of the validation library: a
non-empty local part without whitespace, an at-sign, and a dotted domain
whose final label is alphabetic of length at least two.  No claim depends
on the exact boundary of the pattern. -/
def isValidEmail (s : String) : Bool :=
  match splitOnChar '@' s.toList with
  | [lp, dom] =>
    let labels := splitOnChar '.' dom
    !lp.isEmpty && !(lp.any Char.isWhitespace) &&
      decide (2 ≤ labels.length) && labels.all isEmailLabel &&
      (match labels.getLast? with
       | some tld => decide (2 ≤ tld.length) && tld.all Char.isAlpha
       | none => false)
  | _ => false

/-- Validation of the customer name: a string of minimum length one with a
custom message; an absent field is an invalid-type failure. -/
def parseName : Option String → Except (List String) String
  | none => .error [requiredStringMsg]
  | some s => if 1 ≤ s.length then .ok s else .error [enterNameMsg]

/-- Validation of the customer email: a string satisfying the email pattern. -/
def parseEmail : Option String → Except (List String) String
  | none => .error [requiredStringMsg]
  | some s => if isValidEmail s then .ok s else .error [invalidEmailMsg]

/-- Validation of a whole customer submission by the AddCustomerSchema. -/
def AddCustomerSchema.safeParse (raw : CustomerFormData) : Except CustomerFieldErrors CustomerData :=
  match parseName raw.name, parseEmail raw.email with
  | .ok n, .ok e => .ok ⟨n, e⟩
  | rn, re => .error ⟨errsOf rn, errsOf re⟩

/-! ### Handler results: states, observable effects, outcomes -/

/-- The State type returned to the invoice forms: optional field errors,
optional echo of the raw submitted values, optional message. -/
structure State where
  errors : Option InvoiceFieldErrors
  values : Option InvoiceFormData
  message : Option String
deriving DecidableEq

/-- The CustomersState type returned to the customer form. -/
structure CustomersState where
  errors : Option CustomerFieldErrors
  values : Option CustomerFormData
  message : Option String
deriving DecidableEq

/-- Observable side effects of a handler invocation, in the order performed:
the parameterized SQL statements with their bound values, cache
revalidation of a path, and server-side logging of a caught error. -/
inductive Effect where
  | insertInvoice (customerId : String) (amountInCents : ℚ) (status : String) (date : String)
  | updateInvoiceRow (id : String) (customerId : String) (amountInCents : ℚ) (status : String)
  | insertCustomer (name : String) (email : String) (imageUrl : String)
  | deleteInvoiceRow (id : String)
  | deleteCustomerRow (id : String)
  | revalidatePath (path : String)
  | logError
deriving DecidableEq

/-- How a handler invocation ends: an ordinary return of a state value, the
control-interrupting redirect signal to a path, or an uncaught thrown error
propagating to the caller. -/
inductive Outcome (σ : Type) where
  | returned (s : σ)
  | redirected (path : String)
  | threw
deriving DecidableEq

/-- Whether an effect is a persistence (SQL) statement. -/
def Effect.isPersistence : Effect → Bool
  | .insertInvoice _ _ _ _ => true
  | .updateInvoiceRow _ _ _ _ => true
  | .insertCustomer _ _ _ => true
  | .deleteInvoiceRow _ => true
  | .deleteCustomerRow _ => true
  | .revalidatePath _ => false
  | .logError => false

/-- The fixed placeholder avatar assigned to every newly added customer. -/
def placeholderImageUrl : String := "/customers/avatar-placeholder.webp"

/-! ### Action handlers.  Each is the transition function of the source
handler with the awaited database call abstracted by the boolean `dbOk`
(true: the statement succeeds; false: it raises a store-level error) and,
for invoice creation, the current ISO calendar date passed as `today`.
The result pairs the ordered effect trace with the outcome. -/

/-- The createInvoice handler: validate with the CreateInvoice schema; on
failure return the error state; on success insert the invoice with the
amount converted to cents and the current date, then revalidate and
redirect to the invoice listing; a database error is caught, logged, and
turned into a generic-message state. -/
def createInvoice (raw : InvoiceFormData) (dbOk : Bool) (today : String) :
    List Effect × Outcome State :=
  match CreateInvoice.safeParse raw with
  | .error errs =>
      ([], .returned { errors := some errs, values := some raw,
                       message := some "Missing Fields. Failed to Create Invoice." })
  | .ok data =>
      let amountInCents := data.amount * 100
      if dbOk then
        ([.insertInvoice data.customerId amountInCents data.status today,
          .revalidatePath "/dashboard/invoices"],
         .redirected "/dashboard/invoices")
      else
        ([.insertInvoice data.customerId amountInCents data.status today, .logError],
         .returned { errors := none, values := some raw,
                     message := some "Database Error: Failed to Create Invoice." })

/-- The updateInvoice handler: validate with the UpdateInvoice schema; on
success update the row for the given id with customer, amount in cents and
status (no date), then revalidate and redirect. -/
def updateInvoice (id : String) (raw : InvoiceFormData) (dbOk : Bool) :
    List Effect × Outcome State :=
  match UpdateInvoice.safeParse raw with
  | .error errs =>
      ([], .returned { errors := some errs, values := some raw,
                       message := some "Missing Fields. Failed to Update Invoice." })
  | .ok data =>
      let amountInCents := data.amount * 100
      if dbOk then
        ([.updateInvoiceRow id data.customerId amountInCents data.status,
          .revalidatePath "/dashboard/invoices"],
         .redirected "/dashboard/invoices")
      else
        ([.updateInvoiceRow id data.customerId amountInCents data.status, .logError],
         .returned { errors := none, values := some raw,
                     message := some "Database Error: Failed to Update Invoice." })

/-- The addCustomer handler: validate with the AddCustomerSchema; on success
insert the customer with the fixed placeholder image, then revalidate and
redirect to the customer listing. -/
def addCustomer (raw : CustomerFormData) (dbOk : Bool) :
    List Effect × Outcome CustomersState :=
  match AddCustomerSchema.safeParse raw with
  | .error errs =>
      ([], .returned { errors := some errs, values := some raw,
                       message := some "Missing Fields. Failed to Add Customer." })
  | .ok data =>
      if dbOk then
        ([.insertCustomer data.name data.email placeholderImageUrl,
          .revalidatePath "/dashboard/customers"],
         .redirected "/dashboard/customers")
      else
        ([.insertCustomer data.name data.email placeholderImageUrl, .logError],
         .returned { errors := none, values := some raw,
                     message := some "Database Error: Failed to Add Customer." })

/-- The deleteInvoice handler: one delete statement, then revalidation of the
invoice listing.  The awaited statement is not wrapped in any try block, so
a store-level error propagates and the revalidation is skipped. -/
def deleteInvoice (id : String) (dbOk : Bool) : List Effect × Outcome Unit :=
  if dbOk then
    ([.deleteInvoiceRow id, .revalidatePath "/dashboard/invoices"], .returned ())
  else
    ([.deleteInvoiceRow id], .threw)

/-- The deleteCustomer handler: one delete statement, then revalidation of the
customer listing; likewise no try block. -/
def deleteCustomer (id : String) (dbOk : Bool) : List Effect × Outcome Unit :=
  if dbOk then
    ([.deleteCustomerRow id, .revalidatePath "/dashboard/customers"], .returned ())
  else
    ([.deleteCustomerRow id], .threw)

/-! ### Authentication -/

/-- How the awaited sign-in call ends, as observed by the catch clause of the
authenticate handler: success, a typed authentication error carrying its
discriminating kind string, or any other thrown error. -/
inductive SignInResult where
  | success
  | authError (errType : String)
  | otherError
deriving DecidableEq

/-- How the authenticate handler ends: a normal return (with no message on
success, a message string on a recognized failure) or a re-raised error. -/
inductive AuthOutcome where
  | returned (msg : Option String)
  | rethrown
deriving DecidableEq

/-- The authenticate handler: a recognized authentication error of kind
CredentialsSignin maps to the invalid-credentials message, any other
recognized kind to the generic message; success returns nothing; any other
error is re-raised unchanged. -/
def authenticate : SignInResult → AuthOutcome
  | .success => .returned none
  | .authError t =>
      .returned (some (if t = "CredentialsSignin" then "Invalid credentials." else "Something went wrong."))
  | .otherError => .rethrown

/-! ### Field extraction from the submitted FormData, modelled as a partial
mapping from field names to string values (`none`: the entry is absent and
the FormData lookup yields no string) -/

/-- The raw invoice fields a handler reads from the submission. -/
def extractInvoiceForm (formData : String → Option String) : InvoiceFormData :=
  { customerId := formData "customerId"
    amount := formData "amount"
    status := formData "status" }

/-- The raw customer fields the addCustomer handler reads from the submission. -/
def extractCustomerForm (formData : String → Option String) : CustomerFormData :=
  { name := formData "name"
    email := formData "email" }

/-! ### Characterization lemmas for the validators -/

theorem parseCustomerId_isOk (o : Option String) :
    (parseCustomerId o).isOk = true ↔ o.isSome = true := by
  cases o <;> simp [parseCustomerId, Except.isOk, Except.toBool]

theorem parseAmount_isOk (o : Option String) :
    (parseAmount o).isOk = true ↔ ∃ q : ℚ, coerceNumber o = some q ∧ 0 < q := by
  rcases h : coerceNumber o with _ | q
  · simp [parseAmount, h, Except.isOk, Except.toBool]
  · by_cases hq : 0 < q <;> simp [parseAmount, h, hq, Except.isOk, Except.toBool]

theorem parseStatus_isOk (o : Option String) :
    (parseStatus o).isOk = true ↔ o = some "pending" ∨ o = some "paid" := by
  rcases o with _ | s
  · simp [parseStatus, Except.isOk, Except.toBool]
  · by_cases hs : s = "pending" ∨ s = "paid" <;>
      simp [parseStatus, hs, Except.isOk, Except.toBool]

theorem parseInvoiceForm_isOk (raw : InvoiceFormData) :
    (parseInvoiceForm raw).isOk = true ↔
      (parseCustomerId raw.customerId).isOk = true ∧
      (parseAmount raw.amount).isOk = true ∧
      (parseStatus raw.status).isOk = true := by
  unfold parseInvoiceForm
  rcases hc : parseCustomerId raw.customerId with ec | c <;>
    rcases ha : parseAmount raw.amount with ea | a <;>
      rcases hs : parseStatus raw.status with es | s <;>
        simp [Except.isOk, Except.toBool]

theorem parseAmount_error_of_nonpos (o : Option String) (q : ℚ)
    (hc : coerceNumber o = some q) (hq : q ≤ 0) :
    parseAmount o = .error [amountGtZeroMsg] := by
  simp [parseAmount, hc, not_lt.mpr hq]

theorem parseInvoiceForm_error_of_amount (raw : InvoiceFormData) (msgs : List String)
    (h : parseAmount raw.amount = .error msgs) :
    parseInvoiceForm raw =
      .error ⟨errsOf (parseCustomerId raw.customerId), msgs,
              errsOf (parseStatus raw.status)⟩ := by
  unfold parseInvoiceForm
  rcases hc : parseCustomerId raw.customerId with ec | c <;>
    rcases hs : parseStatus raw.status with es | s <;> rw [h] <;> rfl

theorem addCustomerParse_isOk (raw : CustomerFormData) :
    (AddCustomerSchema.safeParse raw).isOk = true ↔
      (parseName raw.name).isOk = true ∧ (parseEmail raw.email).isOk = true := by
  unfold AddCustomerSchema.safeParse
  rcases hn : parseName raw.name with en | n <;>
    rcases he : parseEmail raw.email with ee | e <;>
      simp [Except.isOk, Except.toBool]

/-! ### Unfolding lemmas for the handlers -/

theorem createInvoice_parse_error (raw : InvoiceFormData) (errs : InvoiceFieldErrors)
    (dbOk : Bool) (today : String) (h : CreateInvoice.safeParse raw = .error errs) :
    createInvoice raw dbOk today =
      ([], .returned { errors := some errs, values := some raw,
                       message := some "Missing Fields. Failed to Create Invoice." }) := by
  unfold createInvoice
  rw [h]

theorem createInvoice_parse_ok (raw : InvoiceFormData) (d : InvoiceData)
    (dbOk : Bool) (today : String) (h : CreateInvoice.safeParse raw = .ok d) :
    createInvoice raw dbOk today =
      (if dbOk then
        ([.insertInvoice d.customerId (d.amount * 100) d.status today,
          .revalidatePath "/dashboard/invoices"],
         .redirected "/dashboard/invoices")
      else
        ([.insertInvoice d.customerId (d.amount * 100) d.status today, .logError],
         .returned { errors := none, values := some raw,
                     message := some "Database Error: Failed to Create Invoice." })) := by
  unfold createInvoice
  rw [h]

theorem updateInvoice_parse_error (id : String) (raw : InvoiceFormData)
    (errs : InvoiceFieldErrors) (dbOk : Bool) (h : UpdateInvoice.safeParse raw = .error errs) :
    updateInvoice id raw dbOk =
      ([], .returned { errors := some errs, values := some raw,
                       message := some "Missing Fields. Failed to Update Invoice." }) := by
  unfold updateInvoice
  rw [h]

theorem updateInvoice_parse_ok (id : String) (raw : InvoiceFormData) (d : InvoiceData)
    (dbOk : Bool) (h : UpdateInvoice.safeParse raw = .ok d) :
    updateInvoice id raw dbOk =
      (if dbOk then
        ([.updateInvoiceRow id d.customerId (d.amount * 100) d.status,
          .revalidatePath "/dashboard/invoices"],
         .redirected "/dashboard/invoices")
      else
        ([.updateInvoiceRow id d.customerId (d.amount * 100) d.status, .logError],
         .returned { errors := none, values := some raw,
                     message := some "Database Error: Failed to Update Invoice." })) := by
  unfold updateInvoice
  rw [h]

theorem addCustomer_parse_error (raw : CustomerFormData) (errs : CustomerFieldErrors)
    (dbOk : Bool) (h : AddCustomerSchema.safeParse raw = .error errs) :
    addCustomer raw dbOk =
      ([], .returned { errors := some errs, values := some raw,
                       message := some "Missing Fields. Failed to Add Customer." }) := by
  unfold addCustomer
  rw [h]

theorem addCustomer_parse_ok (raw : CustomerFormData) (d : CustomerData)
    (dbOk : Bool) (h : AddCustomerSchema.safeParse raw = .ok d) :
    addCustomer raw dbOk =
      (if dbOk then
        ([.insertCustomer d.name d.email placeholderImageUrl,
          .revalidatePath "/dashboard/customers"],
         .redirected "/dashboard/customers")
      else
        ([.insertCustomer d.name d.email placeholderImageUrl, .logError],
         .returned { errors := none, values := some raw,
                     message := some "Database Error: Failed to Add Customer." })) := by
  unfold addCustomer
  rw [h]

/-! ### Claim theorems -/

/-- Claim C1, counterexample: the customerId schema is a plain string schema,
so the empty string is accepted and validation of a submission with an
empty customer reference and otherwise valid fields succeeds, contrary to
the stated non-emptiness requirement; consequently the cited example input
produces errors on amount and status but none on customerId. -/
theorem C1_empty_customer_accepted :
    CreateInvoice.safeParse { customerId := some "", amount := some "5", status := some "paid" } =
      .ok { customerId := "", amount := 5, status := "paid" } ∧
    CreateInvoice.safeParse { customerId := some "", amount := some "-5", status := some "x" } =
      .error { customerId := [], amount := [amountGtZeroMsg],
               status := [invalidEnumValueMsg "x"] } :=
  ⟨by decide, by decide⟩

/-- Claim C1 (amended): invoice validation succeeds iff the customer
reference is present as a string (the empty string included), the amount
coerces to a number strictly greater than 0, and the status is exactly
pending or paid; the cited example input yields errors on amount and status
only; and for every input whose amount coerces to a value at most 0, the
amount error is the greater-than-zero message and no persistence effect
occurs in either invoice handler. -/
theorem C1_validation_characterized :
    (∀ raw : InvoiceFormData,
      (CreateInvoice.safeParse raw).isOk = true ↔
        raw.customerId.isSome = true ∧
        (∃ q : ℚ, coerceNumber raw.amount = some q ∧ 0 < q) ∧
        (raw.status = some "pending" ∨ raw.status = some "paid")) ∧
    CreateInvoice.safeParse { customerId := some "", amount := some "-5", status := some "x" } =
      .error { customerId := [], amount := [amountGtZeroMsg],
               status := [invalidEnumValueMsg "x"] } ∧
    (∀ (raw : InvoiceFormData) (q : ℚ), coerceNumber raw.amount = some q → q ≤ 0 →
      (∃ errs : InvoiceFieldErrors,
        CreateInvoice.safeParse raw = .error errs ∧ errs.amount = [amountGtZeroMsg]) ∧
      (∀ (dbOk : Bool) (today : String), (createInvoice raw dbOk today).1 = []) ∧
      (∀ (id : String) (dbOk : Bool), (updateInvoice id raw dbOk).1 = [])) := by
  refine ⟨?_, by decide, ?_⟩
  · intro raw
    rw [show CreateInvoice.safeParse raw = parseInvoiceForm raw from rfl,
        parseInvoiceForm_isOk, parseCustomerId_isOk, parseAmount_isOk, parseStatus_isOk]
  · intro raw q hc hq
    have ha := parseAmount_error_of_nonpos raw.amount q hc hq
    have hform := parseInvoiceForm_error_of_amount raw _ ha
    refine ⟨⟨_, hform, rfl⟩, ?_, ?_⟩
    · intro dbOk today
      rw [createInvoice_parse_error raw _ dbOk today hform]
    · intro id dbOk
      rw [updateInvoice_parse_error id raw _ dbOk hform]

/-- Claim C1, witness at a concrete nonpositive amount. -/
theorem C1_validation_characterized_witness :
    coerceNumber (some "-5") = some (-5) ∧ ((-5 : ℚ) ≤ 0) ∧
    (createInvoice { customerId := some "a", amount := some "-5", status := some "paid" }
      true "2026-10-11").1 = [] ∧
    (updateInvoice "i7" { customerId := some "a", amount := some "-5", status := some "paid" }
      false).1 = [] :=
  ⟨by decide, by norm_num,
   (C1_validation_characterized.2.2 _ (-5) (by decide) (by norm_num)).2.1 true "2026-10-11",
   (C1_validation_characterized.2.2 _ (-5) (by decide) (by norm_num)).2.2 "i7" false⟩

/-- Claim C2: every create, update or add handler, on a raw submission that
fails validation, returns exactly the flattened per-field errors, the raw
submitted values echoed unchanged, and the missing-fields message for its
entity, while performing no effect and raising no navigation signal. -/
theorem C2_validation_failure_state :
    (∀ (raw : InvoiceFormData) (errs : InvoiceFieldErrors) (dbOk : Bool) (today : String),
      CreateInvoice.safeParse raw = .error errs →
      createInvoice raw dbOk today =
        ([], .returned { errors := some errs, values := some raw,
                         message := some "Missing Fields. Failed to Create Invoice." })) ∧
    (∀ (id : String) (raw : InvoiceFormData) (errs : InvoiceFieldErrors) (dbOk : Bool),
      UpdateInvoice.safeParse raw = .error errs →
      updateInvoice id raw dbOk =
        ([], .returned { errors := some errs, values := some raw,
                         message := some "Missing Fields. Failed to Update Invoice." })) ∧
    (∀ (raw : CustomerFormData) (errs : CustomerFieldErrors) (dbOk : Bool),
      AddCustomerSchema.safeParse raw = .error errs →
      addCustomer raw dbOk =
        ([], .returned { errors := some errs, values := some raw,
                         message := some "Missing Fields. Failed to Add Customer." })) :=
  ⟨fun raw errs dbOk today h => createInvoice_parse_error raw errs dbOk today h,
   fun id raw errs dbOk h => updateInvoice_parse_error id raw errs dbOk h,
   fun raw errs dbOk h => addCustomer_parse_error raw errs dbOk h⟩

/-- Claim C2, witness at an entirely absent submission. -/
theorem C2_validation_failure_state_witness :
    CreateInvoice.safeParse { customerId := none, amount := none, status := none } =
      .error { customerId := [selectCustomerMsg], amount := [amountGtZeroMsg],
               status := [selectStatusMsg] } ∧
    createInvoice { customerId := none, amount := none, status := none } true "2026-10-11" =
      ([], .returned
        { errors := some { customerId := [selectCustomerMsg], amount := [amountGtZeroMsg],
                           status := [selectStatusMsg] },
          values := some { customerId := none, amount := none, status := none },
          message := some "Missing Fields. Failed to Create Invoice." }) :=
  ⟨by decide, C2_validation_failure_state.1 _ _ true "2026-10-11" (by decide)⟩

/-- Claim C3: when the persistence call of a validated submission raises a
store-level error, every handler catches it, logs it, and returns a state
carrying only the raw submitted values and the generic database-error
message for its entity and operation; the outcome is an ordinary return,
never a navigation signal, and no error detail reaches the caller. -/
theorem C3_db_error_state :
    (∀ (raw : InvoiceFormData) (d : InvoiceData) (today : String),
      CreateInvoice.safeParse raw = .ok d →
      createInvoice raw false today =
        ([.insertInvoice d.customerId (d.amount * 100) d.status today, .logError],
         .returned { errors := none, values := some raw,
                     message := some "Database Error: Failed to Create Invoice." })) ∧
    (∀ (id : String) (raw : InvoiceFormData) (d : InvoiceData),
      UpdateInvoice.safeParse raw = .ok d →
      updateInvoice id raw false =
        ([.updateInvoiceRow id d.customerId (d.amount * 100) d.status, .logError],
         .returned { errors := none, values := some raw,
                     message := some "Database Error: Failed to Update Invoice." })) ∧
    (∀ (raw : CustomerFormData) (d : CustomerData),
      AddCustomerSchema.safeParse raw = .ok d →
      addCustomer raw false =
        ([.insertCustomer d.name d.email placeholderImageUrl, .logError],
         .returned { errors := none, values := some raw,
                     message := some "Database Error: Failed to Add Customer." })) := by
  refine ⟨?_, ?_, ?_⟩
  · intro raw d today h
    rw [createInvoice_parse_ok raw d false today h]
    rfl
  · intro id raw d h
    rw [updateInvoice_parse_ok id raw d false h]
    rfl
  · intro raw d h
    rw [addCustomer_parse_ok raw d false h]
    rfl

/-- Claim C3, witness at a concrete valid invoice whose insert fails. -/
theorem C3_db_error_state_witness :
    CreateInvoice.safeParse { customerId := some "c1", amount := some "20", status := some "paid" } =
      .ok { customerId := "c1", amount := 20, status := "paid" } ∧
    createInvoice { customerId := some "c1", amount := some "20", status := some "paid" }
        false "2026-10-11" =
      ([.insertInvoice "c1" ((20 : ℚ) * 100) "paid" "2026-10-11", .logError],
       .returned { errors := none,
                   values := some { customerId := some "c1", amount := some "20",
                                    status := some "paid" },
                   message := some "Database Error: Failed to Create Invoice." }) :=
  ⟨by decide, C3_db_error_state.1 _ ⟨"c1", 20, "paid"⟩ "2026-10-11" (by decide)⟩

/-- Claim C4: when the persistence call of a validated submission succeeds,
every handler performs exactly one cache revalidation of the listing path
of the affected collection, immediately after the persistence statement,
and the invocation ends in the redirect signal to that same path; the
outcome is the navigation signal itself, never a database-error return, so
the signal is not reclassified as a persistence failure. -/
theorem C4_success_revalidate_then_redirect :
    (∀ (raw : InvoiceFormData) (d : InvoiceData) (today : String),
      CreateInvoice.safeParse raw = .ok d →
      createInvoice raw true today =
        ([.insertInvoice d.customerId (d.amount * 100) d.status today,
          .revalidatePath "/dashboard/invoices"],
         .redirected "/dashboard/invoices")) ∧
    (∀ (id : String) (raw : InvoiceFormData) (d : InvoiceData),
      UpdateInvoice.safeParse raw = .ok d →
      updateInvoice id raw true =
        ([.updateInvoiceRow id d.customerId (d.amount * 100) d.status,
          .revalidatePath "/dashboard/invoices"],
         .redirected "/dashboard/invoices")) ∧
    (∀ (raw : CustomerFormData) (d : CustomerData),
      AddCustomerSchema.safeParse raw = .ok d →
      addCustomer raw true =
        ([.insertCustomer d.name d.email placeholderImageUrl,
          .revalidatePath "/dashboard/customers"],
         .redirected "/dashboard/customers")) := by
  refine ⟨?_, ?_, ?_⟩
  · intro raw d today h
    rw [createInvoice_parse_ok raw d true today h]
    rfl
  · intro id raw d h
    rw [updateInvoice_parse_ok id raw d true h]
    rfl
  · intro raw d h
    rw [addCustomer_parse_ok raw d true h]
    rfl

/-- Claim C4, witness at a concrete valid invoice whose insert succeeds. -/
theorem C4_success_revalidate_then_redirect_witness :
    CreateInvoice.safeParse { customerId := some "c1", amount := some "20", status := some "paid" } =
      .ok { customerId := "c1", amount := 20, status := "paid" } ∧
    createInvoice { customerId := some "c1", amount := some "20", status := some "paid" }
        true "2026-10-11" =
      ([.insertInvoice "c1" ((20 : ℚ) * 100) "paid" "2026-10-11",
        .revalidatePath "/dashboard/invoices"],
       .redirected "/dashboard/invoices") :=
  ⟨by decide,
   C4_success_revalidate_then_redirect.1 _ ⟨"c1", 20, "paid"⟩ "2026-10-11" (by decide)⟩

/-- Claim C5: for every invoice submission passing validation, the amount
bound into the persistence statement is the validated amount multiplied by
100, and the creation handler additionally binds the current-date argument
it computed at call time, while the update statement carries only customer,
amount and status. -/
theorem C5_amount_and_date_persisted :
    (∀ (raw : InvoiceFormData) (d : InvoiceData) (dbOk : Bool) (today : String),
      CreateInvoice.safeParse raw = .ok d →
      (createInvoice raw dbOk today).1.head? =
        some (.insertInvoice d.customerId (d.amount * 100) d.status today)) ∧
    (∀ (id : String) (raw : InvoiceFormData) (d : InvoiceData) (dbOk : Bool),
      UpdateInvoice.safeParse raw = .ok d →
      (updateInvoice id raw dbOk).1.head? =
        some (.updateInvoiceRow id d.customerId (d.amount * 100) d.status)) := by
  constructor
  · intro raw d dbOk today h
    rw [createInvoice_parse_ok raw d dbOk today h]
    cases dbOk <;> rfl
  · intro id raw d dbOk h
    rw [updateInvoice_parse_ok id raw d dbOk h]
    cases dbOk <;> rfl

/-- Claim C5, witness at a concrete valid invoice. -/
theorem C5_amount_and_date_persisted_witness :
    CreateInvoice.safeParse { customerId := some "c1", amount := some "20", status := some "paid" } =
      .ok { customerId := "c1", amount := 20, status := "paid" } ∧
    (createInvoice { customerId := some "c1", amount := some "20", status := some "paid" }
        true "2026-10-11").1.head? =
      some (.insertInvoice "c1" ((20 : ℚ) * 100) "paid" "2026-10-11") ∧
    (updateInvoice "i7" { customerId := some "c1", amount := some "20", status := some "paid" }
        false).1.head? =
      some (.updateInvoiceRow "i7" "c1" ((20 : ℚ) * 100) "paid") :=
  ⟨by decide,
   C5_amount_and_date_persisted.1 _ ⟨"c1", 20, "paid"⟩ true "2026-10-11" (by decide),
   C5_amount_and_date_persisted.2 "i7" _ ⟨"c1", 20, "paid"⟩ false (by decide)⟩

/-- Claim C6: for every customer submission passing validation, the image
reference bound into the insert statement is the fixed placeholder path,
whatever the submitted fields were. -/
theorem C6_placeholder_image :
    placeholderImageUrl = "/customers/avatar-placeholder.webp" ∧
    ∀ (raw : CustomerFormData) (d : CustomerData) (dbOk : Bool),
      AddCustomerSchema.safeParse raw = .ok d →
      (addCustomer raw dbOk).1.head? =
        some (.insertCustomer d.name d.email placeholderImageUrl) := by
  refine ⟨rfl, ?_⟩
  intro raw d dbOk h
  rw [addCustomer_parse_ok raw d dbOk h]
  cases dbOk <;> rfl

/-- Claim C6, witness at a concrete valid customer. -/
theorem C6_placeholder_image_witness :
    AddCustomerSchema.safeParse { name := some "Ada", email := some "ada@example.com" } =
      .ok { name := "Ada", email := "ada@example.com" } ∧
    (addCustomer { name := some "Ada", email := some "ada@example.com" } true).1.head? =
      some (.insertCustomer "Ada" "ada@example.com" placeholderImageUrl) :=
  ⟨by decide, C6_placeholder_image.2 _ ⟨"Ada", "ada@example.com"⟩ true (by decide)⟩

/-- Claim C7: the authenticate handler returns the invalid-credentials
message exactly on the recognized credentials-sign-in error kind, the
generic message on every other recognized authentication-error kind,
nothing on success, and re-raises any unrecognized error unchanged. -/
theorem C7_authenticate_mapping :
    authenticate .success = .returned none ∧
    authenticate (.authError "CredentialsSignin") = .returned (some "Invalid credentials.") ∧
    (∀ t : String, t ≠ "CredentialsSignin" →
      authenticate (.authError t) = .returned (some "Something went wrong.")) ∧
    authenticate .otherError = .rethrown := by
  refine ⟨rfl, by decide, ?_, rfl⟩
  intro t ht
  simp [authenticate, ht]

/-- Claim C7, witness at a concrete non-credentials authentication error. -/
theorem C7_authenticate_mapping_witness :
    "AccessDenied" ≠ "CredentialsSignin" ∧
    authenticate (.authError "AccessDenied") = .returned (some "Something went wrong.") :=
  ⟨by decide, C7_authenticate_mapping.2.2.1 "AccessDenied" (by decide)⟩

/-- Claim C8, counterexample: the delete handlers wrap their statement in no
failure-catching scope, so at a concrete identifier whose delete raises a
store-level error the invocation propagates the error (and skips the
revalidation) instead of returning a generic result. -/
theorem C8_delete_error_propagates :
    deleteInvoice "invoice-1" false = ([.deleteInvoiceRow "invoice-1"], .threw) ∧
    deleteCustomer "customer-1" false = ([.deleteCustomerRow "customer-1"], .threw) :=
  ⟨rfl, rfl⟩

/-- Claim C8 (amended): the delete handlers perform no validation, issue
exactly one delete statement for the given identifier, and on success
revalidate the listing path of their collection; they never raise the
navigation signal; a store-level error during the delete propagates
uncaught to the caller and the revalidation is skipped. -/
theorem C8_delete_handlers :
    ∀ (id : String) (dbOk : Bool),
      deleteInvoice id dbOk =
        (if dbOk then
          ([.deleteInvoiceRow id, .revalidatePath "/dashboard/invoices"], .returned ())
        else
          ([.deleteInvoiceRow id], .threw)) ∧
      deleteCustomer id dbOk =
        (if dbOk then
          ([.deleteCustomerRow id, .revalidatePath "/dashboard/customers"], .returned ())
        else
          ([.deleteCustomerRow id], .threw)) := by
  intro id dbOk
  cases dbOk <;> exact ⟨rfl, rfl⟩

/-- Claim C9: a form field that is absent from the submission is extracted as
the absent value, and the corresponding validation necessarily fails, so
extraction failures are never reported separately from validation
failures. -/
theorem C9_missing_fields_fail_validation :
    (∀ fd : String → Option String, fd "customerId" = none →
      (extractInvoiceForm fd).customerId = none ∧
      (CreateInvoice.safeParse (extractInvoiceForm fd)).isOk = false ∧
      (UpdateInvoice.safeParse (extractInvoiceForm fd)).isOk = false) ∧
    (∀ fd : String → Option String, fd "amount" = none →
      (extractInvoiceForm fd).amount = none ∧
      (CreateInvoice.safeParse (extractInvoiceForm fd)).isOk = false) ∧
    (∀ fd : String → Option String, fd "status" = none →
      (extractInvoiceForm fd).status = none ∧
      (CreateInvoice.safeParse (extractInvoiceForm fd)).isOk = false) ∧
    (∀ fd : String → Option String, fd "name" = none →
      (extractCustomerForm fd).name = none ∧
      (AddCustomerSchema.safeParse (extractCustomerForm fd)).isOk = false) ∧
    (∀ fd : String → Option String, fd "email" = none →
      (extractCustomerForm fd).email = none ∧
      (AddCustomerSchema.safeParse (extractCustomerForm fd)).isOk = false) := by
  refine ⟨?_, ?_, ?_, ?_, ?_⟩
  · intro fd h
    refine ⟨h, ?_, ?_⟩ <;>
      · rw [Bool.eq_false_iff]
        intro hok
        have h1 := (parseCustomerId_isOk _).mp
          ((parseInvoiceForm_isOk (extractInvoiceForm fd)).mp hok).1
        rw [show (extractInvoiceForm fd).customerId = fd "customerId" from rfl, h] at h1
        simp at h1
  · intro fd h
    refine ⟨h, ?_⟩
    rw [Bool.eq_false_iff]
    intro hok
    obtain ⟨q, hq, hpos⟩ := (parseAmount_isOk _).mp
      ((parseInvoiceForm_isOk (extractInvoiceForm fd)).mp hok).2.1
    have hq0 : some (0 : ℚ) = some q := by
      rw [← hq]
      show some 0 = coerceNumber (extractInvoiceForm fd).amount
      rw [show (extractInvoiceForm fd).amount = fd "amount" from rfl, h]
      rfl
    rw [← Option.some.inj hq0] at hpos
    exact absurd hpos (lt_irrefl 0)
  · intro fd h
    refine ⟨h, ?_⟩
    rw [Bool.eq_false_iff]
    intro hok
    have hs := (parseStatus_isOk _).mp
      ((parseInvoiceForm_isOk (extractInvoiceForm fd)).mp hok).2.2
    rw [show (extractInvoiceForm fd).status = fd "status" from rfl, h] at hs
    rcases hs with h2 | h2 <;> exact Option.noConfusion h2
  · intro fd h
    refine ⟨h, ?_⟩
    rw [Bool.eq_false_iff]
    intro hok
    have hn := ((addCustomerParse_isOk (extractCustomerForm fd)).mp hok).1
    rw [show (extractCustomerForm fd).name = fd "name" from rfl, h] at hn
    simp [parseName, Except.isOk, Except.toBool] at hn
  · intro fd h
    refine ⟨h, ?_⟩
    rw [Bool.eq_false_iff]
    intro hok
    have he := ((addCustomerParse_isOk (extractCustomerForm fd)).mp hok).2
    rw [show (extractCustomerForm fd).email = fd "email" from rfl, h] at he
    simp [parseEmail, Except.isOk, Except.toBool] at he

/-- Claim C9, witness at the empty submission mapping. -/
theorem C9_missing_fields_fail_validation_witness :
    ((fun _ : String => (none : Option String)) "customerId" = none) ∧
    (extractInvoiceForm (fun _ => none)).customerId = none ∧
    (CreateInvoice.safeParse (extractInvoiceForm (fun _ => none))).isOk = false :=
  ⟨rfl, (C9_missing_fields_fail_validation.1 (fun _ => none) rfl).1,
   (C9_missing_fields_fail_validation.1 (fun _ => none) rfl).2.1⟩

/-- Claim C10: the CreateInvoice and UpdateInvoice schemas are the same omit
of the same form schema, so validation of any raw submission by one gives
exactly the result of the other, success and per-field error lists alike. -/
theorem C10_create_update_same_schema :
    ∀ raw : InvoiceFormData, CreateInvoice.safeParse raw = UpdateInvoice.safeParse raw :=
  fun _ => rfl

end Actions
